import Mathlib

/-!
Verification of the study-tracker core (shallow embedding).

The definitions below embed the persistent data model and the operations of
`src/src/data_store.py`, the countdown / stopwatch timer widgets of
`src/src/study_view.py`, and the call sites that connect them.  Machine
integers are modelled as `Int` / `Nat` (Python integers are unbounded, so no
wrap-around is involved); timestamps are modelled as integer seconds with the
order of ISO-8601 strings of UTC datetimes coinciding with the numeric order.
-/

namespace StudyTracker

/-! ## Data model (tables created by `DataStore.ensure_schema`) -/

/-- A row of the `subjects` table. -/
structure SubjectRow where
  id : Nat
  name : String
  color : String
  deriving Repr, DecidableEq

/-- A row of the `sessions` table.  `occurred_at` is the UTC timestamp in
seconds (the code stores ISO strings, whose lexicographic order agrees with
the numeric order of the instants they denote). -/
structure SessionRow where
  id : Nat
  subject_id : Nat
  minutes : Int
  occurred_at : Int
  deriving Repr, DecidableEq

/-- A row of the `chapters` table. -/
structure ChapterRow where
  id : Nat
  subject_id : Nat
  title : String
  position : Int
  done : Bool
  notes : String
  deriving Repr, DecidableEq

/-- The sqlite database contents relevant to the claims. -/
structure DataStore where
  subjects : List SubjectRow
  sessions : List SessionRow
  chapters : List ChapterRow
  deriving Repr, DecidableEq

namespace DataStore

/-- Next AUTOINCREMENT id for the sessions table. -/
def nextSessionId (st : DataStore) : Nat :=
  (st.sessions.map (·.id)).foldr max 0 + 1

/-- Embeds `DataStore.delete_subject` (data_store.py lines 62-65).  The connection
returned by `_connect` (lines 11-14) never issues `PRAGMA foreign_keys = ON`,
and Python's sqlite3 leaves foreign-key enforcement off by default, so the
`ON DELETE CASCADE` clauses declared in `ensure_schema` never fire: only the
`subjects` row itself is deleted, and session/chapter rows keep referencing
the deleted id. -/
def delete_subject (subject_id : Nat) (st : DataStore) : DataStore :=
  { st with subjects := st.subjects.filter (fun s => s.id ≠ subject_id) }

/-- Embeds `DataStore.log_session` (data_store.py lines 73-80): inserts the row
unconditionally; no check is made on `minutes`. -/
def log_session (subject_id : Nat) (minutes : Int) (when : Int)
    (st : DataStore) : DataStore :=
  { st with sessions :=
      st.sessions ++ [⟨st.nextSessionId, subject_id, minutes, when⟩] }

end DataStore

/-! ## Statistics aggregation (`DataStore.get_stats`, data_store.py lines 82-112)

Temporal values: `occurred_at` is an instant in seconds since 1970-01-01
00:00:00 UTC; calendar days are indexed by days since 1970-01-01, which was a
Thursday, so Python's `date.weekday()` (Monday = 0) of day `d` is
`(d + 3) % 7`.  The SQL comparisons on ISO strings order timestamps exactly
like these numbers.  `%` and `/` on `Int` agree with Python's `%` and `//`
(both are Euclidean for the positive constants used here). -/

/-- Number of seconds in a day. -/
def secondsPerDay : Int := 86400

/-- Short weekday labels as produced by `strftime("%a")` in a C locale,
indexed by Python's `date.weekday()` (Monday = 0). -/
def weekdayLabels : List String :=
  ["Mon", "Tue", "Wed", "Thu", "Fri", "Sat", "Sun"]

/-- Python's `date.weekday()` (Monday = 0) of the day with index `day`. -/
def pyWeekday (day : Int) : Int := (day + 3) % 7

namespace DataStore

/-- Embeds the `total_since` inner helper of `get_stats` (lines 91-95):
`SELECT COALESCE(SUM(minutes),0) FROM sessions WHERE occurred_at >= ts`. -/
def total_since (sessions : List SessionRow) (ts : Int) : Int :=
  ((sessions.filter (fun s => ts ≤ s.occurred_at)).map (·.minutes)).sum

/-- Embeds the range query of the bars loop (lines 107-110):
sum of minutes over sessions with `start <= occurred_at < stop`. -/
def total_between (sessions : List SessionRow) (start stop : Int) : Int :=
  ((sessions.filter
      (fun s => start ≤ s.occurred_at ∧ s.occurred_at < stop)).map
    (·.minutes)).sum

/-- Embeds the `week` statistic of `get_stats` (lines 85 and 98):
`week_start = day_start - timedelta(days=(day_start.weekday() + 1) % 7)` and
the minutes summed from that instant on.  `nowDay` is the day index of the
current UTC day (so `day_start` is `nowDay * 86400` seconds). -/
def get_stats_week (sessions : List SessionRow) (nowDay : Int) : Int :=
  let weekStartDay := nowDay - (pyWeekday nowDay + 1) % 7
  total_since sessions (weekStartDay * secondsPerDay)

/-- Embeds the `bars` loop of `get_stats` (lines 101-112): for the 7 days
from `sunday_start`, the label `start.strftime("%a")` paired with the minutes
in `[start, start + 1 day)`. -/
def get_stats_bars (sessions : List SessionRow) (nowDay : Int) :
    List (String × Int) :=
  let sundayStart := nowDay - (pyWeekday nowDay + 1) % 7
  (List.range 7).map (fun offset =>
    let day := sundayStart + (offset : Int)
    (weekdayLabels.getD (pyWeekday day).toNat "",
     total_between sessions (day * secondsPerDay)
       (day * secondsPerDay + secondsPerDay)))

/-- Modelled from the spec: `DataStore.reorder_chapters` is missing from
`src/src/data_store.py`; only its caller `StudyView._persist_order`
(study_view.py lines 781-784) is in the sources.  Spec §4.3: "reorder
(subjectId, orderedIds): rewrites position for each id to its index in the
given sequence; must validate that orderedIds is exactly the current id set
for that subject (no partial reorders)". -/
def reorder_chapters (subject_id : Nat) (orderedIds : List Nat)
    (st : DataStore) : DataStore :=
  let currentIds := (st.chapters.filter (fun c => c.subject_id = subject_id)).map (·.id)
  if orderedIds.isPerm currentIds then
    { st with chapters := st.chapters.map (fun c =>
        if c.subject_id = subject_id then
          { c with position := (orderedIds.indexOf c.id : Int) }
        else c) }
  else st

end DataStore

/-! ## Spec-side calendar notions (for the week/bars claims) -/

/-- Index of a day in the Sunday-based week: 0 for Sunday, …, 6 for
Saturday (1970-01-01, day 0, was a Thursday, index 4). -/
def weekdayFromSunday (day : Int) : Int := (day + 4) % 7

/-- The most recent Sunday at or before the given day (the spec's
`day_start - weekday_index_from_sunday` days). -/
def sundayOnOrBefore (day : Int) : Int := day - weekdayFromSunday day

/-- Weekday labels in Sunday-through-Saturday order. -/
def sundayWeekLabels : List String :=
  ["Sun", "Mon", "Tue", "Wed", "Thu", "Fri", "Sat"]

/-! ## Timer engine (src/src/study_view.py)

The Qt widgets hold their mutable state in instance attributes; we embed that
state as records and each handler as a state transition.  `timerActive`
models `QTimer.isActive()` (the periodic one-second driver).  Handlers that
read an attribute which `__init__` never assigns (`_paused`, `total_minutes`
are only assigned by `start` / `reset` / `open_editor` / `toggle_pause`) are
embedded in `Except String`, erroring exactly where Python would raise
`AttributeError`.  Completion-callback invocations are recorded in `events`
(the argument passed to `on_complete`). -/

/-- Mutable state of `CountdownWidget`. -/
structure CountdownState where
  total_seconds : Int
  remaining_seconds : Int
  hours : Int
  minutes : Int
  seconds : Int
  /-- Field `self.total_minutes`: not assigned in `__init__`, only by
  `start` (line 472) and `open_editor` (line 460). -/
  total_minutes : Option Int
  /-- Field `self._paused`: not assigned in `__init__`, only by `start`,
  `reset`, `open_editor` and `toggle_pause`. -/
  _paused : Option Bool
  timerActive : Bool
  /-- Arguments of the `on_complete` calls made so far. -/
  events : List Int
  deriving Repr, DecidableEq

namespace CountdownWidget

/-- Embeds `CountdownWidget.__init__` (lines 352-368), state-relevant part. -/
def init (default_minutes : Int) : CountdownState :=
  { total_seconds := max 1 (default_minutes * 60)
    remaining_seconds := max 1 (default_minutes * 60)
    hours := default_minutes / 60
    minutes := default_minutes % 60
    seconds := 0
    total_minutes := none
    _paused := none
    timerActive := false
    events := [] }

/-- Embeds `CountdownWidget._get_active_total_seconds` (lines 443-444). -/
def _get_active_total_seconds (st : CountdownState) : Int :=
  st.hours * 3600 + st.minutes * 60 + st.seconds

/-- Embeds `TimerEditDialog._commit_field` clamp for the hours field (lines 252-254). -/
def clampHours (v : Int) : Int := max 0 (min 23 v)

/-- Embeds `TimerEditDialog._commit_field` clamp for the minutes/seconds fields
(lines 255-260). -/
def clampMinSec (v : Int) : Int := max 0 (min 59 v)

/-- Embeds `CountdownWidget.open_editor` (lines 449-464) with the dialog accepted:
the submitted fields go through `TimerEditDialog._commit_field`, which clamps
each one independently; the widget then applies the total only if it is
positive, otherwise nothing changes. -/
def open_editor (h m s : Int) (st : CountdownState) : CountdownState :=
  let h2 := clampHours h
  let m2 := clampMinSec m
  let s2 := clampMinSec s
  let total := h2 * 3600 + m2 * 60 + s2
  if 0 < total then
    { st with hours := h2, minutes := m2, seconds := s2
              total_seconds := total
              remaining_seconds := total
              total_minutes := some (max 1 (total / 60))
              timerActive := false
              _paused := some false }
  else st

/-- Embeds `CountdownWidget.start` (lines 466-476). -/
def start (st : CountdownState) : CountdownState :=
  let total_seconds := _get_active_total_seconds st
  if total_seconds ≤ 0 ∨ st.timerActive then st
  else
    { st with remaining_seconds := total_seconds
              total_seconds := total_seconds
              total_minutes := some (max 1 (total_seconds / 60))
              timerActive := true
              _paused := some false }

/-- Embeds `CountdownWidget.reset` (lines 478-484). -/
def reset (st : CountdownState) : CountdownState :=
  { st with timerActive := false
            remaining_seconds := _get_active_total_seconds st
            _paused := some false }

/-- Embeds `CountdownWidget.toggle_pause` (lines 486-496).  Python short-circuits
`not self.timer.isActive() and not self._paused`, so `_paused` is only read
when the driver is inactive; reading it before it was ever assigned raises
`AttributeError`. -/
def toggle_pause (st : CountdownState) : Except String CountdownState :=
  if st.timerActive then
    .ok { st with timerActive := false, _paused := some true }
  else
    match st._paused with
    | none => .error "AttributeError"
    | some p =>
      if ¬p then .ok st
      else .ok { st with timerActive := true, _paused := some false }

/-- Embeds `CountdownWidget._tick` (lines 498-509): decrement, and on reaching 0
stop the driver and call `on_complete(self.total_minutes)` (reading
`total_minutes`, which errors if never assigned). -/
def _tick (st : CountdownState) : Except String CountdownState :=
  let r := st.remaining_seconds - 1
  if r ≤ 0 then
    match st.total_minutes with
    | none => .error "AttributeError"
    | some tm =>
      .ok { st with remaining_seconds := 0, timerActive := false
                    events := st.events ++ [tm] }
  else .ok { st with remaining_seconds := r }

/-- Runs `n` consecutive one-second driver ticks. -/
def tickN : Nat → CountdownState → Except String CountdownState
  | 0, st => .ok st
  | n + 1, st => (_tick st).bind (tickN n)

end CountdownWidget

/-- Mutable state of `StopwatchWidget` (`elapsed_seconds` is assigned 0 in
`__init__` and never goes negative). -/
structure StopwatchState where
  elapsed_seconds : Nat
  timerActive : Bool
  deriving Repr, DecidableEq

namespace StopwatchWidget

/-- Embeds `StopwatchWidget.__init__` (lines 265-271), state-relevant part. -/
def init : StopwatchState := { elapsed_seconds := 0, timerActive := false }

/-- Embeds `StopwatchWidget.start` (lines 318-321). -/
def start (st : StopwatchState) : StopwatchState :=
  if st.timerActive then st else { st with timerActive := true }

/-- Embeds `StopwatchWidget.toggle_pause` (lines 323-329): stop the driver if it is
running, otherwise start it — there is no idle/paused distinction. -/
def toggle_pause (st : StopwatchState) : StopwatchState :=
  if st.timerActive then { st with timerActive := false }
  else { st with timerActive := true }

/-- Embeds `StopwatchWidget.reset` (lines 331-335). -/
def reset (_st : StopwatchState) : StopwatchState :=
  { elapsed_seconds := 0, timerActive := false }

/-- Embeds `StopwatchWidget.finish` (lines 337-344): stop the driver, capture the
elapsed seconds, reset to 0, and call `on_finish(secs)` only when the
captured value is positive.  The second component is the argument of that
call, `none` when no call is made. -/
def finish (st : StopwatchState) : StopwatchState × Option Nat :=
  let secs := st.elapsed_seconds
  ({ elapsed_seconds := 0, timerActive := false },
   if 0 < secs then some secs else none)

/-- Embeds `StopwatchWidget._tick` (lines 346-348). -/
def _tick (st : StopwatchState) : StopwatchState :=
  { st with elapsed_seconds := st.elapsed_seconds + 1 }

end StopwatchWidget

namespace StudyView

/-- Embeds `StudyView._log_stopwatch` (lines 732-736): the minutes logged for a
stopwatch finish of `seconds` seconds.  `math.ceil(seconds / 60)` on a
natural number of seconds is `(seconds + 59) / 60`. -/
def _log_stopwatch_minutes (seconds : Nat) : Nat :=
  max 1 ((seconds + 59) / 60)

end StudyView

/-! ## IEEE binary64 emulation

`StudyView._update_progress` (lines 829-836) computes
`percent = int((done / total) * 100)` with Python floats, i.e. IEEE binary64
arithmetic with round-to-nearest, ties-to-even.  We embed the nonnegative
binary64 values as mantissa/exponent pairs and implement the rounding
exactly; overflow and subnormals cannot occur at the magnitudes involved
(every value here lies well inside the normal range). -/

/-- Fuel-driven floor of log2 (`log2Fuel n n` peels one bit per step, so any
fuel of at least `log2 n` steps suffices). -/
def log2Fuel : Nat → Nat → Nat
  | 0, _ => 0
  | fuel + 1, n => if n ≤ 1 then 0 else log2Fuel fuel (n / 2) + 1

/-- Floor of the base-2 logarithm (0 for 0). -/
def natLog2 (n : Nat) : Nat := log2Fuel n n

/-- A nonnegative binary64 value `mant * 2 ^ exp`. -/
structure F64 where
  mant : Nat
  exp : Int
  deriving Repr, DecidableEq

namespace F64

/-- Rounds the nonnegative rational `n / d` (with `d ≠ 0`) to 53 significant
bits, round-to-nearest with ties to even: the binary64 result of exactly
computing `n / d`. -/
def roundPos (n d : Nat) : F64 :=
  if n = 0 ∨ d = 0 then ⟨0, 0⟩
  else
    let s0 : Int := 52 - (natLog2 n : Int) + (natLog2 d : Int)
    let scaledNum : Int → Nat := fun s =>
      if 0 ≤ s then n * 2 ^ s.toNat else n
    let scaledDen : Int → Nat := fun s =>
      if 0 ≤ s then d else d * 2 ^ (-s).toNat
    let s := if scaledNum s0 < 2 ^ 52 * scaledDen s0 then s0 + 1 else s0
    let nn := scaledNum s
    let dd := scaledDen s
    let q := nn / dd
    let r := nn % dd
    let m :=
      if 2 * r < dd then q
      else if dd < 2 * r then q + 1
      else if q % 2 = 0 then q else q + 1
    ⟨m, -s⟩

/-- Conversion of a nonnegative Python int to binary64 (exact below 2^53). -/
def ofNat (x : Nat) : F64 := roundPos x 1

/-- Correctly rounded binary64 division of nonnegative values. -/
def div (x y : F64) : F64 :=
  let t : Int := x.exp - y.exp
  if 0 ≤ t then roundPos (x.mant * 2 ^ t.toNat) y.mant
  else roundPos x.mant (y.mant * 2 ^ (-t).toNat)

/-- Correctly rounded binary64 multiplication of nonnegative values. -/
def mul (x y : F64) : F64 :=
  let z := roundPos (x.mant * y.mant) 1
  ⟨z.mant, z.exp + x.exp + y.exp⟩

/-- Truncation toward zero (Python `int(...)`) of a nonnegative binary64. -/
def trunc (x : F64) : Nat :=
  if 0 ≤ x.exp then x.mant * 2 ^ x.exp.toNat else x.mant / 2 ^ (-x.exp).toNat

end F64

namespace StudyView

/-- Embeds `StudyView._update_progress` (lines 829-836): 0 when there are no
chapters, otherwise `int((done / total) * 100)` evaluated in binary64
arithmetic (`done / total` is Python true division). -/
def _update_progress_percent (done total : Nat) : Nat :=
  if total = 0 then 0
  else F64.trunc (F64.mul (F64.div (F64.ofNat done) (F64.ofNat total)) (F64.ofNat 100))

end StudyView

/-! ## Concrete stores used as witnesses and failing inputs -/

/-- A store holding one subject (id 1) with 2 sessions and 3 chapters. -/
def demoStore : DataStore :=
  { subjects := [⟨1, "Math", "#7ac7ff"⟩]
    sessions := [⟨1, 1, 30, 1000⟩, ⟨2, 1, 45, 2000⟩]
    chapters :=
      [⟨1, 1, "Limits", 1, false, ""⟩,
       ⟨2, 1, "Series", 2, false, ""⟩,
       ⟨3, 1, "Integrals", 3, true, ""⟩] }

/-! ## Claims -/

/-- C1: the claim says `delete_subject` leaves no session or chapter row of
the subject behind.  The code executes only `DELETE FROM subjects` on a
connection that never enables `PRAGMA foreign_keys`, so sqlite's declared
`ON DELETE CASCADE` does not run: deleting subject 1 from a store with 2
sessions and 3 chapters leaves all 5 rows still referencing id 1. -/
theorem delete_subject_leaves_rows :
    (DataStore.delete_subject 1 demoStore).subjects = []
    ∧ ((DataStore.delete_subject 1 demoStore).sessions.filter
        (fun s => s.subject_id = 1)).length = 2
    ∧ ((DataStore.delete_subject 1 demoStore).chapters.filter
        (fun c => c.subject_id = 1)).length = 3 := by
  refine ⟨?_, ?_, ?_⟩ <;> decide

/-- C2: reordering with exactly a permutation of the subject's current
chapter ids rewrites each of that subject's chapter positions to the id's
index in the given sequence, leaving other subjects' chapters untouched;
with a missing or extra id the reorder is rejected and the store is
unchanged.  (`reorder_chapters` is modelled from the spec, the method being
absent from src.) -/
theorem reorder_chapters_spec (st : DataStore) (sid : Nat) (ids : List Nat) :
    (List.Perm ids
        ((st.chapters.filter (fun c => c.subject_id = sid)).map (·.id)) →
      (DataStore.reorder_chapters sid ids st).chapters
        = st.chapters.map (fun c =>
            if c.subject_id = sid then
              { c with position := (ids.indexOf c.id : Int) }
            else c))
    ∧ (¬ List.Perm ids
          ((st.chapters.filter (fun c => c.subject_id = sid)).map (·.id)) →
      DataStore.reorder_chapters sid ids st = st) := by
  constructor
  · intro hp
    simp [DataStore.reorder_chapters, List.isPerm_iff.mpr hp]
  · intro hp
    have hb : ids.isPerm
        ((st.chapters.filter (fun c => c.subject_id = sid)).map (·.id)) = false := by
      by_contra hcon
      exact hp (List.isPerm_iff.mp (by simpa using hcon))
    simp [DataStore.reorder_chapters, hb]

/-- C2 witness: on the demo store (chapter ids 1, 2, 3 for subject 1) the
sequence [3, 1, 2] is accepted and rewrites the positions to the indices
(1 ↦ 1, 2 ↦ 2, 3 ↦ 0), while [1, 2] is rejected unchanged. -/
theorem reorder_chapters_spec_witness :
    ((DataStore.reorder_chapters 1 [3, 1, 2] demoStore).chapters
      = demoStore.chapters.map (fun c =>
          if c.subject_id = 1 then
            { c with position := (([3, 1, 2] : List Nat).indexOf c.id : Int) }
          else c))
    ∧ DataStore.reorder_chapters 1 [1, 2] demoStore = demoStore
    ∧ ((DataStore.reorder_chapters 1 [3, 1, 2] demoStore).chapters.map
        (fun c => (c.id, c.position))) = [(1, 1), (2, 2), (3, 0)] :=
  ⟨(reorder_chapters_spec demoStore 1 [3, 1, 2]).1 (by decide),
   (reorder_chapters_spec demoStore 1 [1, 2]).2 (by decide),
   by decide⟩

/-- Running a countdown whose remaining time is `n > 0` seconds and whose
`total_minutes` attribute holds `tm` completes after exactly `n` ticks: the
driver stops, the remaining time reaches 0 and exactly one completion event
is emitted, carrying `tm`. -/
theorem tickN_run (n : Nat) (st : CountdownState) (tm : Int)
    (hr : st.remaining_seconds = (n : Int)) (hn : 0 < n)
    (htm : st.total_minutes = some tm) :
    CountdownWidget.tickN n st
      = .ok { st with remaining_seconds := 0, timerActive := false,
                      events := st.events ++ [tm] } := by
  induction n generalizing st with
  | zero => omega
  | succ k ih =>
    cases k with
    | zero =>
      have h1 : st.remaining_seconds - 1 ≤ 0 := by omega
      simp [CountdownWidget.tickN, CountdownWidget._tick, h1, htm, Except.bind]
    | succ j =>
      have h1 : ¬ st.remaining_seconds - 1 ≤ 0 := by
        rw [hr]; push_cast; omega
      have step : CountdownWidget._tick st
          = .ok { st with remaining_seconds := st.remaining_seconds - 1 } := by
        simp [CountdownWidget._tick, h1]
      have hr2 : ({ st with remaining_seconds := st.remaining_seconds - 1 }
          : CountdownState).remaining_seconds = ((j + 1 : Nat) : Int) := by
        show st.remaining_seconds - 1 = ((j + 1 : Nat) : Int)
        omega
      have hgoal : CountdownWidget.tickN (j + 1 + 1) st
          = CountdownWidget.tickN (j + 1)
              { st with remaining_seconds := st.remaining_seconds - 1 } := by
        show (CountdownWidget._tick st).bind _ = _
        rw [step]
        rfl
      rw [hgoal, ih _ hr2 (Nat.succ_pos j) htm]

/-- Starting an idle countdown whose active total is positive simply loads
that total and marks the driver running. -/
theorem start_of_idle (st : CountdownState)
    (hact : st.timerActive = false)
    (hpos : 0 < CountdownWidget._get_active_total_seconds st) :
    CountdownWidget.start st
      = { st with
            remaining_seconds := CountdownWidget._get_active_total_seconds st
            total_seconds := CountdownWidget._get_active_total_seconds st
            total_minutes :=
              some (max 1 (CountdownWidget._get_active_total_seconds st / 60))
            timerActive := true
            _paused := some false } := by
  have hcond : ¬ (CountdownWidget._get_active_total_seconds st ≤ 0
      ∨ st.timerActive = true) := by
    push_neg
    exact ⟨by omega, by simp [hact]⟩
  unfold CountdownWidget.start
  rw [if_neg hcond]

/-- C3 counterexample: a countdown configured to 30 seconds (under one
minute) completes with a completion event carrying 1 minute, not
floor(30 / 60) = 0 as the claim states. -/
theorem countdown_sub_minute_event_not_zero :
    (CountdownWidget.tickN 30
        (CountdownWidget.start
          (CountdownWidget.open_editor 0 0 30 (CountdownWidget.init 30)))).map
      CountdownState.events = Except.ok [1]
    ∧ (30 : Int) / 60 = 0 :=
  ⟨rfl, rfl⟩

/-- C3 amended: the completion event of a countdown with positive configured
total `T` carries `max 1 (T / 60)` minutes — the floor division with a
minimum of 1 applied — so a configuration under 60 seconds emits 1, not 0. -/
theorem countdown_completion_minutes (st : CountdownState)
    (hact : st.timerActive = false)
    (hpos : 0 < CountdownWidget._get_active_total_seconds st) :
    ∃ st2,
      CountdownWidget.tickN (CountdownWidget._get_active_total_seconds st).toNat
          (CountdownWidget.start st) = .ok st2
      ∧ st2.events
          = st.events ++ [max 1 (CountdownWidget._get_active_total_seconds st / 60)]
      ∧ (CountdownWidget._get_active_total_seconds st < 60 →
          st2.events = st.events ++ [1]) := by
  have hrun := tickN_run (CountdownWidget._get_active_total_seconds st).toNat
    (CountdownWidget.start st)
    (max 1 (CountdownWidget._get_active_total_seconds st / 60))
    (by rw [start_of_idle st hact hpos]; simp; omega)
    (by omega)
    (by rw [start_of_idle st hact hpos])
  refine ⟨_, hrun, ?_, ?_⟩
  · rw [start_of_idle st hact hpos]
  · intro hlt
    rw [start_of_idle st hact hpos]
    have : CountdownWidget._get_active_total_seconds st / 60 = 0 := by omega
    simp [this]

/-- C3 amended, witness: a 30-second configuration run to completion emits
exactly one event carrying `max 1 (30 / 60) = 1` minute. -/
theorem countdown_completion_minutes_witness :
    ∃ st2,
      CountdownWidget.tickN
          (CountdownWidget._get_active_total_seconds
            (CountdownWidget.open_editor 0 0 30 (CountdownWidget.init 30))).toNat
          (CountdownWidget.start
            (CountdownWidget.open_editor 0 0 30 (CountdownWidget.init 30)))
        = .ok st2
      ∧ st2.events
          = (CountdownWidget.open_editor 0 0 30 (CountdownWidget.init 30)).events
            ++ [max 1 (CountdownWidget._get_active_total_seconds
                  (CountdownWidget.open_editor 0 0 30 (CountdownWidget.init 30)) / 60)]
      ∧ (CountdownWidget._get_active_total_seconds
            (CountdownWidget.open_editor 0 0 30 (CountdownWidget.init 30)) < 60 →
          st2.events
            = (CountdownWidget.open_editor 0 0 30 (CountdownWidget.init 30)).events
              ++ [1]) :=
  countdown_completion_minutes _ (by decide) (by decide)

/-- C5: applying `tick()` exactly `total` times to a countdown just started
with positive active total `total` stops the driver, leaves remaining = 0,
and invokes the completion callback exactly once over the whole run. -/
theorem countdown_tick_total_completes (st : CountdownState)
    (hact : st.timerActive = false)
    (hpos : 0 < CountdownWidget._get_active_total_seconds st) :
    ∃ st2,
      CountdownWidget.tickN (CountdownWidget._get_active_total_seconds st).toNat
          (CountdownWidget.start st) = .ok st2
      ∧ st2.timerActive = false
      ∧ st2.remaining_seconds = 0
      ∧ ∃ mins, st2.events = st.events ++ [mins] := by
  have hrun := tickN_run (CountdownWidget._get_active_total_seconds st).toNat
    (CountdownWidget.start st)
    (max 1 (CountdownWidget._get_active_total_seconds st / 60))
    (by rw [start_of_idle st hact hpos]; simp; omega)
    (by omega)
    (by rw [start_of_idle st hact hpos])
  refine ⟨_, hrun, rfl, rfl, ?_⟩
  exact ⟨_, by rw [start_of_idle st hact hpos]⟩

/-- C5 witness: a countdown configured to 2 min 5 s (125 seconds) completes
after 125 ticks with the driver stopped, remaining 0 and one event. -/
theorem countdown_tick_total_completes_witness :
    ∃ st2,
      CountdownWidget.tickN
          (CountdownWidget._get_active_total_seconds
            (CountdownWidget.open_editor 0 2 5 (CountdownWidget.init 30))).toNat
          (CountdownWidget.start
            (CountdownWidget.open_editor 0 2 5 (CountdownWidget.init 30)))
        = .ok st2
      ∧ st2.timerActive = false
      ∧ st2.remaining_seconds = 0
      ∧ ∃ mins, st2.events
          = (CountdownWidget.open_editor 0 2 5 (CountdownWidget.init 30)).events
            ++ [mins] :=
  countdown_tick_total_completes _ (by decide) (by decide)

/-- C4 counterexample: toggling pause on a freshly created (never started)
stopwatch starts the periodic driver instead of being a no-op; on a freshly
created countdown the same toggle raises `AttributeError` (the `_paused`
attribute is only assigned by start/reset/configure), which is not a no-op
either. -/
theorem toggle_pause_idle_counterexample :
    (StopwatchWidget.toggle_pause StopwatchWidget.init).timerActive = true
    ∧ StopwatchWidget.toggle_pause StopwatchWidget.init ≠ StopwatchWidget.init
    ∧ CountdownWidget.toggle_pause (CountdownWidget.init 30)
        = .error "AttributeError" :=
  ⟨rfl, by decide, rfl⟩

/-- C4 amended: for the countdown, the toggle is a no-op exactly when the
driver is inactive and the `_paused` flag is `false` (Completed, or Idle
reached via a start/reset/configure); with the flag never assigned it raises
`AttributeError`.  For the stopwatch, the toggle with the driver stopped
always starts the driver (resume behaviour), leaving elapsed unchanged. -/
theorem toggle_pause_amended :
    (∀ st : CountdownState, st.timerActive = false → st._paused = some false →
        CountdownWidget.toggle_pause st = .ok st)
    ∧ (∀ st : CountdownState, st.timerActive = false → st._paused = none →
        CountdownWidget.toggle_pause st = .error "AttributeError")
    ∧ (∀ st : StopwatchState, st.timerActive = false →
        StopwatchWidget.toggle_pause st = { st with timerActive := true }) := by
  refine ⟨?_, ?_, ?_⟩
  · intro st h1 h2
    simp [CountdownWidget.toggle_pause, h1, h2]
  · intro st h1 h2
    simp [CountdownWidget.toggle_pause, h1, h2]
  · intro st h1
    simp [StopwatchWidget.toggle_pause, h1]

/-- C4 amended, witness: the three cases at concrete states — a reset (idle)
countdown is unchanged, a fresh countdown errors, a fresh stopwatch gets its
driver started. -/
theorem toggle_pause_amended_witness :
    CountdownWidget.toggle_pause (CountdownWidget.reset (CountdownWidget.init 30))
      = .ok (CountdownWidget.reset (CountdownWidget.init 30))
    ∧ CountdownWidget.toggle_pause (CountdownWidget.init 5)
        = .error "AttributeError"
    ∧ StopwatchWidget.toggle_pause StopwatchWidget.init
        = { StopwatchWidget.init with timerActive := true } :=
  ⟨toggle_pause_amended.1 _ rfl rfl,
   toggle_pause_amended.2.1 _ rfl rfl,
   toggle_pause_amended.2.2 _ rfl⟩

/-- The week-start offset computed by the code (from Python's Monday-based
weekday) lands on the most recent Sunday at or before the day. -/
theorem weekStart_eq_sunday (d : Int) :
    d - (pyWeekday d + 1) % 7 = sundayOnOrBefore d := by
  unfold pyWeekday sundayOnOrBefore weekdayFromSunday
  omega

/-- The Monday-based weekday of the day `k` days after the week's Sunday. -/
theorem pyWeekday_sunday_add (d k : Int) :
    pyWeekday (sundayOnOrBefore d + k) = (6 + k) % 7 := by
  unfold pyWeekday sundayOnOrBefore weekdayFromSunday
  omega

/-- C6: the `week` total sums the minutes of the sessions at or after
midnight of the most recent Sunday at/before the current day, and `bars` is
exactly 7 label/total pairs, in Sunday-through-Saturday order of that week,
each total summing the sessions in the half-open day interval. -/
theorem get_stats_week_bars (sessions : List SessionRow) (nowDay : Int) :
    DataStore.get_stats_week sessions nowDay
      = DataStore.total_since sessions (sundayOnOrBefore nowDay * secondsPerDay)
    ∧ (DataStore.get_stats_bars sessions nowDay).length = 7
    ∧ ∀ i : Fin 7,
        (DataStore.get_stats_bars sessions nowDay).getD (i : Nat) ("", 0)
          = (sundayWeekLabels.getD (i : Nat) "",
             DataStore.total_between sessions
               ((sundayOnOrBefore nowDay + ((i : Nat) : Int)) * secondsPerDay)
               ((sundayOnOrBefore nowDay + ((i : Nat) : Int)) * secondsPerDay
                 + secondsPerDay)) := by
  refine ⟨?_, ?_, ?_⟩
  · unfold DataStore.get_stats_week
    rw [weekStart_eq_sunday]
  · rfl
  · intro i
    unfold DataStore.get_stats_bars
    rw [weekStart_eq_sunday]
    fin_cases i <;>
      simp [show List.range 7 = [0, 1, 2, 3, 4, 5, 6] from rfl,
            pyWeekday_sunday_add, weekdayLabels, sundayWeekLabels]

/-- C7: stopwatch `finish` stops the driver and resets elapsed to 0; it
invokes the completion callback iff the captured elapsed was positive, and
the minutes then logged are `max 1 ⌈elapsed/60⌉`, which equals the plain
ceiling `(elapsed + 59) / 60` (so 1 for 1..60 seconds, 3 for 125). -/
theorem stopwatch_finish_spec (st : StopwatchState) :
    (StopwatchWidget.finish st).1.timerActive = false
    ∧ (StopwatchWidget.finish st).1.elapsed_seconds = 0
    ∧ ((StopwatchWidget.finish st).2
        = if 0 < st.elapsed_seconds then some st.elapsed_seconds else none)
    ∧ (∀ s, (StopwatchWidget.finish st).2 = some s →
        StudyView._log_stopwatch_minutes s = (s + 59) / 60
        ∧ 60 * ((s + 59) / 60 - 1) < s ∧ s ≤ 60 * ((s + 59) / 60))
    ∧ (1 ≤ st.elapsed_seconds → st.elapsed_seconds ≤ 60 →
        ((StopwatchWidget.finish st).2).map StudyView._log_stopwatch_minutes
          = some 1)
    ∧ (st.elapsed_seconds = 125 →
        ((StopwatchWidget.finish st).2).map StudyView._log_stopwatch_minutes
          = some 3) := by
  refine ⟨rfl, rfl, rfl, ?_, ?_, ?_⟩
  · intro s hs
    by_cases h : 0 < st.elapsed_seconds
    · simp [StopwatchWidget.finish, h] at hs
      subst hs
      unfold StudyView._log_stopwatch_minutes
      refine ⟨?_, ?_, ?_⟩ <;> omega
    · simp [StopwatchWidget.finish, h] at hs
  · intro h1 h2
    have h : 0 < st.elapsed_seconds := h1
    simp [StopwatchWidget.finish, h, StudyView._log_stopwatch_minutes]
    omega
  · intro h
    simp [StopwatchWidget.finish, h, StudyView._log_stopwatch_minutes]

/-- C7 witness: finishes at elapsed 0 (no callback), 60 (callback, 1 min)
and 125 (callback, 3 min). -/
theorem stopwatch_finish_spec_witness :
    ((StopwatchWidget.finish ⟨0, true⟩).2
        = if 0 < (0 : Nat) then some (0 : Nat) else none)
    ∧ ((StopwatchWidget.finish ⟨60, true⟩).2).map StudyView._log_stopwatch_minutes
        = some 1
    ∧ ((StopwatchWidget.finish ⟨125, true⟩).2).map StudyView._log_stopwatch_minutes
        = some 3 :=
  ⟨(stopwatch_finish_spec ⟨0, true⟩).2.2.1,
   (stopwatch_finish_spec ⟨60, true⟩).2.2.2.2.1 (by decide) (by decide),
   (stopwatch_finish_spec ⟨125, true⟩).2.2.2.2.2 rfl⟩

/-- C8: each submitted duration field is independently clamped (hours to
0–23, minutes and seconds to 0–59); a clamped total of zero rejects the
configuration leaving the whole state unchanged, and a positive clamped
total becomes both the configured and the remaining duration. -/
theorem open_editor_spec (h m s : Int) (st : CountdownState) :
    (0 ≤ CountdownWidget.clampHours h ∧ CountdownWidget.clampHours h ≤ 23)
    ∧ (0 ≤ CountdownWidget.clampMinSec m ∧ CountdownWidget.clampMinSec m ≤ 59)
    ∧ (0 ≤ CountdownWidget.clampMinSec s ∧ CountdownWidget.clampMinSec s ≤ 59)
    ∧ (CountdownWidget.clampHours h * 3600 + CountdownWidget.clampMinSec m * 60
        + CountdownWidget.clampMinSec s = 0 →
        CountdownWidget.open_editor h m s st = st)
    ∧ (0 < CountdownWidget.clampHours h * 3600 + CountdownWidget.clampMinSec m * 60
        + CountdownWidget.clampMinSec s →
        (CountdownWidget.open_editor h m s st).hours = CountdownWidget.clampHours h
        ∧ (CountdownWidget.open_editor h m s st).minutes
            = CountdownWidget.clampMinSec m
        ∧ (CountdownWidget.open_editor h m s st).seconds
            = CountdownWidget.clampMinSec s
        ∧ (CountdownWidget.open_editor h m s st).total_seconds
            = CountdownWidget.clampHours h * 3600
              + CountdownWidget.clampMinSec m * 60 + CountdownWidget.clampMinSec s
        ∧ (CountdownWidget.open_editor h m s st).remaining_seconds
            = (CountdownWidget.open_editor h m s st).total_seconds) := by
  refine ⟨⟨?_, ?_⟩, ⟨?_, ?_⟩, ⟨?_, ?_⟩, ?_, ?_⟩
  · unfold CountdownWidget.clampHours; omega
  · unfold CountdownWidget.clampHours; omega
  · unfold CountdownWidget.clampMinSec; omega
  · unfold CountdownWidget.clampMinSec; omega
  · unfold CountdownWidget.clampMinSec; omega
  · unfold CountdownWidget.clampMinSec; omega
  · intro h0
    have hc : ¬ (0 < CountdownWidget.clampHours h * 3600
        + CountdownWidget.clampMinSec m * 60 + CountdownWidget.clampMinSec s) := by
      omega
    simp only [CountdownWidget.open_editor]
    rw [if_neg hc]
  · intro hpos
    simp only [CountdownWidget.open_editor]
    rw [if_pos hpos]
    exact ⟨rfl, rfl, rfl, rfl, rfl⟩

/-- C8 witness: an all-zero submission is rejected unchanged; the submission
(25 h, 61 min, -3 s) is clamped to (23, 59, 0), total 86340 s, which becomes
both the configured and remaining duration. -/
theorem open_editor_spec_witness :
    CountdownWidget.open_editor 0 0 0 (CountdownWidget.init 30)
      = CountdownWidget.init 30
    ∧ (CountdownWidget.open_editor 25 61 (-3) (CountdownWidget.init 30)).total_seconds
        = CountdownWidget.clampHours 25 * 3600 + CountdownWidget.clampMinSec 61 * 60
          + CountdownWidget.clampMinSec (-3)
    ∧ (CountdownWidget.open_editor 25 61 (-3) (CountdownWidget.init 30)).remaining_seconds
        = (CountdownWidget.open_editor 25 61 (-3) (CountdownWidget.init 30)).total_seconds
    ∧ CountdownWidget.clampHours 25 * 3600 + CountdownWidget.clampMinSec 61 * 60
        + CountdownWidget.clampMinSec (-3) = 86340 :=
  ⟨(open_editor_spec 0 0 0 (CountdownWidget.init 30)).2.2.2.1 (by decide),
   ((open_editor_spec 25 61 (-3) (CountdownWidget.init 30)).2.2.2.2 (by decide)).2.2.2.1,
   ((open_editor_spec 25 61 (-3) (CountdownWidget.init 30)).2.2.2.2 (by decide)).2.2.2.2,
   by decide⟩

set_option maxRecDepth 8000 in
/-- C9 counterexample: with 29 of 100 chapters done the code displays 28,
while the exact integer floor of 100 * 29 / 100 is 29 — the binary64
evaluation of `int((29 / 100) * 100)` truncates `28.999999999999996`. -/
theorem update_progress_float_counterexample :
    StudyView._update_progress_percent 29 100 = 28
    ∧ (100 * 29) / 100 = 29 := by
  exact ⟨by decide, rfl⟩

set_option maxRecDepth 8000 in
/-- C9 amended: the displayed percentage is the truncation of
`(done / total) * 100` computed in binary64 floating point, which is 0 for an
empty chapter set and matches the exact floor on exactly representable cases
(1 of 4 gives 25) but can fall one below it (29 of 100 gives 28, not 29). -/
theorem update_progress_percent_amended :
    (∀ d : Nat, StudyView._update_progress_percent d 0 = 0)
    ∧ StudyView._update_progress_percent 1 4 = 25
    ∧ StudyView._update_progress_percent 29 100 = 28
    ∧ StudyView._update_progress_percent 29 100 ≠ (100 * 29) / 100 := by
  refine ⟨fun d => rfl, by decide, by decide, by decide⟩

/-- C10: `log_session` validates nothing — for every integer `m`, zero and
negative included, it appends a session row carrying exactly `m` minutes;
positivity of stored sessions comes only from the call sites: the stopwatch
path fires its callback only for positive captured elapsed and logs
`max 1 ⌈s/60⌉ ≥ 1`, and a successful countdown start stores a
`total_minutes` of `max 1 _ ≥ 1`, the value later passed to
`_log_session`. -/
theorem log_session_no_validation (st : DataStore) (sid : Nat) (m w : Int) :
    ((DataStore.log_session sid m w st).sessions.map
        (fun r => (r.subject_id, r.minutes)))
      = st.sessions.map (fun r => (r.subject_id, r.minutes)) ++ [(sid, m)]
    ∧ (∀ sw : StopwatchState, ∀ v, (StopwatchWidget.finish sw).2 = some v →
        0 < v ∧ 1 ≤ StudyView._log_stopwatch_minutes v)
    ∧ (∀ cd : CountdownState, cd.timerActive = false →
        0 < CountdownWidget._get_active_total_seconds cd →
        ∃ k, (CountdownWidget.start cd).total_minutes = some k ∧ 1 ≤ k) := by
  refine ⟨?_, ?_, ?_⟩
  · simp [DataStore.log_session]
  · intro sw v hv
    by_cases h : 0 < sw.elapsed_seconds
    · simp [StopwatchWidget.finish, h] at hv
      subst hv
      exact ⟨h, le_max_left 1 _⟩
    · simp [StopwatchWidget.finish, h] at hv
  · intro cd hact hpos
    rw [start_of_idle cd hact hpos]
    exact ⟨_, rfl, le_max_left 1 _⟩

/-- C10 witness: logging -5 minutes on the demo store appends a row with
exactly -5 minutes; a stopwatch finish at 125 s yields positive minutes; a
started fresh countdown stores minutes at least 1. -/
theorem log_session_no_validation_witness :
    ((DataStore.log_session 1 (-5) 0 demoStore).sessions.map
        (fun r => (r.subject_id, r.minutes)))
      = demoStore.sessions.map (fun r => (r.subject_id, r.minutes)) ++ [(1, -5)]
    ∧ (0 < 125 ∧ 1 ≤ StudyView._log_stopwatch_minutes 125)
    ∧ ∃ k, (CountdownWidget.start (CountdownWidget.init 30)).total_minutes
          = some k ∧ 1 ≤ k :=
  ⟨(log_session_no_validation demoStore 1 (-5) 0).1,
   (log_session_no_validation demoStore 1 (-5) 0).2.1 ⟨125, true⟩ 125 rfl,
   (log_session_no_validation demoStore 1 (-5) 0).2.2 (CountdownWidget.init 30)
     rfl (by decide)⟩

end StudyTracker
